import Mathlib

/-!
Shallow embedding of the grid-trading engine in src/product_app.py of the
hozunlee/bit-moon repository.  Prices, volumes and amounts are modelled as
rationals; the exchange client (pyupbit) is modelled as an oracle whose
answers are passed in explicitly, with a missing answer (a None return or a
raised exception) modelled as Option.none; the database writes of
save_grid / save_trade are modelled as the returned level and trade values.
-/

namespace BitMoon

/-- One grid level: the dictionary built in create_grid_orders
(src/product_app.py lines 326-333) and mutated in buy_coin / sell_coin. -/
structure GridLevel where
  level : Nat
  buy_price_target : ℚ
  sell_price_target : ℚ
  buy_price_min : ℚ
  order_krw_amount : ℚ
  is_bought : Bool
  actual_bought_volume : ℚ
  actual_buy_fill_price : ℚ
deriving DecidableEq

/-- The fields of an order detail returned by upbit.get_order, each optional
because buy_coin and sell_coin read them with dictionary .get defaults. -/
structure OrderDetail where
  executed_volume : Option ℚ
  avg_price : Option ℚ
  paid_fee : Option ℚ
deriving DecidableEq

/-- The buy_sell column of a trades row. -/
inductive Side where
  | buy
  | sell
deriving DecidableEq

/-- One row of the trades table as written by save_trade
(src/product_app.py lines 180-198); profit and profit_percentage default
to 0 for buy rows. -/
structure Trade where
  side : Side
  grid_level : Nat
  price : ℚ
  amount : ℚ
  volume : ℚ
  fee : ℚ
  profit : ℚ
  profit_percentage : ℚ
deriving DecidableEq

/-- A triggered transition of check_price_and_trade, identified by the
grid level it acts on. -/
inductive Action where
  | buy (level : Nat)
  | sell (level : Nat)
deriving DecidableEq

/-- The interval resolution of create_grid_orders (lines 308-316): a
positive GRID_INTERVAL_PERCENT selects the dynamic percent interval
BASE_PRICE * (percent / 100), otherwise the fixed PRICE_CHANGE is used.
(The Python test is GRID_INTERVAL_PERCENT and GRID_INTERVAL_PERCENT > 0;
for the numeric value loaded with default 0 this truthiness conjunction is
equivalent to GRID_INTERVAL_PERCENT > 0.) -/
def resolvedInterval (base_price grid_interval_percent price_change : ℚ) : ℚ :=
  if 0 < grid_interval_percent then base_price * (grid_interval_percent / 100)
  else price_change

/-- create_grid_orders (src/product_app.py lines 297-338).  The live read
get_current_price() performed first is passed in as current_market_price,
none modelling a failed read; the optional input_base_price argument
defaults to the live price; none is returned where the Python returns
False (failed live read, or resolved interval <= 0). -/
def create_grid_orders (current_market_price input_base_price : Option ℚ)
    (grid_interval_percent price_change : ℚ) (max_grid_count : Nat)
    (order_amount : ℚ) : Option (List GridLevel) :=
  match current_market_price with
  | none => none
  | some market_price =>
    let base_price := input_base_price.getD market_price
    let price_change_amount :=
      resolvedInterval base_price grid_interval_percent price_change
    if price_change_amount ≤ 0 then none
    else
      some ((List.range max_grid_count).map (fun i =>
        { level := i + 1
          buy_price_target := base_price - i * price_change_amount
          sell_price_target := (base_price - i * price_change_amount) + price_change_amount
          buy_price_min := (base_price - i * price_change_amount) - price_change_amount
          order_krw_amount := order_amount
          is_bought := false
          actual_bought_volume := 0
          actual_buy_fill_price := 0 }))

/-- The buy trigger of check_price_and_trade (line 442): level not bought
and the current price inside the band (buy_price_min, buy_price_target]. -/
def buyCondition (price : ℚ) (g : GridLevel) : Bool :=
  !g.is_bought && decide (g.buy_price_min < price) && decide (price ≤ g.buy_price_target)

/-- The sell trigger of check_price_and_trade (line 447): level bought and
the current price at or above the sell target. -/
def sellCondition (price : ℚ) (g : GridLevel) : Bool :=
  g.is_bought && decide (g.sell_price_target ≤ price)

/-- The actions triggered by one pass of check_price_and_trade over the
grid at a single price snapshot (lines 440-451): per level, the buy
trigger, else the sell trigger, else nothing. -/
def evaluate (price : ℚ) (grids : List GridLevel) : List Action :=
  grids.filterMap (fun g =>
    if buyCondition price g then some (Action.buy g.level)
    else if sellCondition price g then some (Action.sell g.level)
    else none)

/-- buy_coin (src/product_app.py lines 352-391) acting on one level:
krw_balance is the exchange's answer to upbit.get_balance("KRW"),
order_result the confirmed order detail (none when the submitted order has
no uuid, or confirmation raises).  Returns the Python return value, the
level after the call, and the trades row appended by save_trade, if any. -/
def buy_coin (fee_rate current_price krw_balance : ℚ)
    (order_result : Option OrderDetail) (g : GridLevel) :
    Bool × GridLevel × Option Trade :=
  if g.is_bought then (false, g, none)
  else if krw_balance < g.order_krw_amount then (false, g, none)
  else
    match order_result with
    | none => (false, g, none)
    | some od =>
      let actual_volume := od.executed_volume.getD 0
      let actual_price := od.avg_price.getD current_price
      let fee := od.paid_fee.getD (g.order_krw_amount * fee_rate)
      if actual_volume ≤ 0 then (false, g, none)
      else
        (true,
         { g with is_bought := true, actual_bought_volume := actual_volume,
                  actual_buy_fill_price := actual_price },
         some { side := Side.buy, grid_level := g.level, price := actual_price,
                amount := g.order_krw_amount, volume := actual_volume, fee := fee,
                profit := 0, profit_percentage := 0 })

/-- sell_coin (src/product_app.py lines 393-431) acting on one level:
coin_balance is the exchange's answer to upbit.get_balance(TICKER),
order_result the confirmed order detail of the market sell.  The reported
executed volume is never read: the recorded actual_bought_volume is used
throughout. -/
def sell_coin (fee_rate current_price coin_balance : ℚ)
    (order_result : Option OrderDetail) (g : GridLevel) :
    Bool × GridLevel × Option Trade :=
  if !g.is_bought then (false, g, none)
  else
    let volume_to_sell := g.actual_bought_volume
    if coin_balance < volume_to_sell then (false, g, none)
    else
      match order_result with
      | none => (false, g, none)
      | some od =>
        let actual_price := od.avg_price.getD current_price
        let fee := od.paid_fee.getD ((volume_to_sell * actual_price) * fee_rate)
        let net_sell_krw := (volume_to_sell * actual_price) - fee
        let profit := net_sell_krw - g.order_krw_amount
        let profit_percentage :=
          if 0 < g.order_krw_amount then (profit / g.order_krw_amount) * 100 else 0
        (true,
         { g with is_bought := false, actual_bought_volume := 0,
                  actual_buy_fill_price := 0 },
         some { side := Side.sell, grid_level := g.level, price := actual_price,
                amount := net_sell_krw, volume := volume_to_sell, fee := fee,
                profit := profit, profit_percentage := profit_percentage })

/-- The exchange oracle for one cycle: per grid level, the balances that
upbit.get_balance reports when that level is processed and the confirmed
order detail its market order would produce (none models a failed
submission or confirmation). -/
structure Env where
  fee_rate : ℚ
  krw_balance : Nat → ℚ
  coin_balance : Nat → ℚ
  buy_order : Nat → Option OrderDetail
  sell_order : Nat → Option OrderDetail

/-- The per-level loop body of check_price_and_trade (lines 440-451):
each level is tested with the buy trigger, else the sell trigger, and the
matching market order is executed; levels are processed independently.
Returns the grid after the pass, the appended trades rows in order, and
the traded flag. -/
def trade_pass (env : Env) (price : ℚ) :
    List GridLevel → List GridLevel × List Trade × Bool
  | [] => ([], [], false)
  | g :: rest =>
    let acc := trade_pass env price rest
    if buyCondition price g then
      let r := buy_coin env.fee_rate price (env.krw_balance g.level)
        (env.buy_order g.level) g
      (r.2.1 :: acc.1, r.2.2.toList ++ acc.2.1, r.1 || acc.2.2)
    else if sellCondition price g then
      let r := sell_coin env.fee_rate price (env.coin_balance g.level)
        (env.sell_order g.level) g
      (r.2.1 :: acc.1, r.2.2.toList ++ acc.2.1, r.1 || acc.2.2)
    else (g :: acc.1, acc.2.1, acc.2.2)

/-- check_price_and_trade (src/product_app.py lines 433-452): guards
against a non-positive current price, then runs the per-level pass. -/
def check_price_and_trade (env : Env) (current_price : ℚ)
    (grids : List GridLevel) : List GridLevel × List Trade × Bool :=
  if current_price ≤ 0 then (grids, [], false)
  else trade_pass env current_price grids

/-- get_current_price (src/product_app.py lines 254-276): ticker_price is
pyupbit's answer (none for a missing tick or a raised error).  Returns the
function's return value together with the previous_price and current_price
globals after the call; on a missing tick the globals are untouched. -/
def get_current_price (ticker_price : Option ℚ) (previous_price : Option ℚ)
    (current_price : ℚ) : Option ℚ × Option ℚ × ℚ :=
  match ticker_price with
  | none => (none, previous_price, current_price)
  | some p => (some p, some p, p)

/-- The mutable state read and written by one iteration of the run_trading
loop: the two price globals, the grid, and the accumulated trades table. -/
structure LoopState where
  previous_price : Option ℚ
  current_price : ℚ
  grid_orders : List GridLevel
  trades : List Trade
deriving DecidableEq

/-- One iteration of the while loop of run_trading (src/product_app.py
lines 468-478): call get_current_price, and only when it returned a price
run check_price_and_trade; then sleep and continue. -/
def run_trading_cycle (tick : Option ℚ) (env : Env) (s : LoopState) :
    LoopState :=
  let r := get_current_price tick s.previous_price s.current_price
  let s1 := { s with previous_price := r.2.1, current_price := r.2.2 }
  match r.1 with
  | none => s1
  | some _ =>
    let t := check_price_and_trade env s1.current_price s1.grid_orders
    { s1 with grid_orders := t.1, trades := s1.trades ++ t.2.1 }

/-- The run_trading loop over a finite prefix of cycles, each cycle fed its
price tick and exchange oracle. -/
def run_trading_loop (ticks : List (Option ℚ × Env)) (s : LoopState) :
    LoopState :=
  ticks.foldl (fun st te => run_trading_cycle te.1 te.2 st) s

/-- The invested capital of a grid: the sum of order_krw_amount over the
currently bought levels (the aggregation computed in
src/streamlit_dashboard.py line 77, which the spec's BudgetGuard reads
from the store). -/
def investedCapital : List GridLevel → ℚ
  | [] => 0
  | g :: gs => (if g.is_bought then g.order_krw_amount else 0) + investedCapital gs

/-- Modelled from the spec: BudgetGuard.isWithinBudget has no
implementation under src/ (only the coin_config.budget_krw column of
src/db_handler.py declares the ceiling).  Spec 4.2: a ceiling of 0 or less
means unconstrained; otherwise the guard returns
investedCapital + proposedOrderAmount <= budgetKrw. -/
def isWithinBudget (budget_krw invested_capital proposed_order_amount : ℚ) :
    Bool :=
  if budget_krw ≤ 0 then true
  else decide (invested_capital + proposed_order_amount ≤ budget_krw)

/-- A requested buy: the level to buy and the fill data the exchange would
report for it. -/
structure BuyAttempt where
  level : Nat
  fill_volume : ℚ
  fill_price : ℚ
deriving DecidableEq

/-- Marking one level of the grid as bought with its fill data: the
grid.update performed by a successful buy, addressed by level number. -/
def markBought : List GridLevel → Nat → ℚ → ℚ → List GridLevel
  | [], _, _, _ => []
  | g :: gs, lvl, v, p =>
    (if g.level = lvl then
      { g with is_bought := true, actual_bought_volume := v,
               actual_buy_fill_price := p }
     else g) :: markBought gs lvl v p

/-- Modelled from the spec: the TradingLoop buy path gated by BudgetGuard
(spec 4.3 step 4, not implemented under src/): immediately before the buy,
isWithinBudget is evaluated on the invested capital read from the store,
and the buy is skipped when the guard fails; an already bought level is
left alone (the applyBuy idempotent guard). -/
def guardedBuyAttempt (budget_krw : ℚ) (grids : List GridLevel)
    (a : BuyAttempt) : List GridLevel × Bool :=
  match grids.find? (fun g => g.level = a.level) with
  | none => (grids, false)
  | some g =>
    if g.is_bought then (grids, false)
    else if isWithinBudget budget_krw (investedCapital grids) g.order_krw_amount then
      (markBought grids a.level a.fill_volume a.fill_price, true)
    else (grids, false)

/-- A sequence of guarded buy attempts, each reading the invested capital
current at its own instant. -/
def runBuyAttempts (budget_krw : ℚ) (grids : List GridLevel)
    (attempts : List BuyAttempt) : List GridLevel :=
  attempts.foldl (fun gs a => (guardedBuyAttempt budget_krw gs a).1) grids

lemma markBought_of_not_mem (gs : List GridLevel) (lvl : Nat) (v p : ℚ)
    (h : ∀ g ∈ gs, g.level ≠ lvl) : markBought gs lvl v p = gs := by
  induction gs with
  | nil => rfl
  | cons a t ih =>
    have ha : a.level ≠ lvl := h a (List.mem_cons_self a t)
    have ht : ∀ g ∈ t, g.level ≠ lvl := fun g hg => h g (List.mem_cons_of_mem a hg)
    simp [markBought, ha, ih ht]

lemma markBought_map_level (gs : List GridLevel) (lvl : Nat) (v p : ℚ) :
    (markBought gs lvl v p).map GridLevel.level = gs.map GridLevel.level := by
  induction gs with
  | nil => rfl
  | cons a t ih => by_cases ha : a.level = lvl <;> simp [markBought, ha, ih]

lemma investedCapital_markBought (gs : List GridLevel) (lvl : Nat) (v p : ℚ)
    (g : GridLevel) (hnd : (gs.map GridLevel.level).Nodup)
    (hfind : gs.find? (fun x => x.level = lvl) = some g)
    (hnb : g.is_bought = false) :
    investedCapital (markBought gs lvl v p) =
      investedCapital gs + g.order_krw_amount := by
  induction gs with
  | nil => simp [List.find?] at hfind
  | cons a t ih =>
    by_cases ha : a.level = lvl
    · have hga : g = a := by
        rw [List.find?_cons_of_pos _ (by simp [ha])] at hfind
        exact (Option.some.injEq _ _).mp hfind.symm
      subst hga
      have hnot : ∀ x ∈ t, x.level ≠ lvl := by
        intro x hx hxl
        have hmem : lvl ∈ t.map GridLevel.level :=
          List.mem_map.mpr ⟨x, hx, hxl⟩
        simp only [List.map_cons, List.nodup_cons, ha] at hnd
        exact hnd.1 hmem
      simp [markBought, ha, markBought_of_not_mem t lvl v p hnot,
        investedCapital, hnb]
      ring
    · have hfind' : t.find? (fun x => x.level = lvl) = some g := by
        rw [List.find?_cons_of_neg _ (by simp [ha])] at hfind
        exact hfind
      have hnd' : (t.map GridLevel.level).Nodup := by
        simp only [List.map_cons, List.nodup_cons] at hnd
        exact hnd.2
      simp [markBought, ha, investedCapital, ih hnd' hfind']
      ring

lemma guardedBuyAttempt_of_find_none (budget : ℚ) (gs : List GridLevel)
    (a : BuyAttempt)
    (hf : gs.find? (fun g => g.level = a.level) = none) :
    guardedBuyAttempt budget gs a = (gs, false) := by
  unfold guardedBuyAttempt
  rw [hf]

lemma guardedBuyAttempt_of_find_some (budget : ℚ) (gs : List GridLevel)
    (a : BuyAttempt) (g : GridLevel)
    (hf : gs.find? (fun x => x.level = a.level) = some g) :
    guardedBuyAttempt budget gs a =
      (if g.is_bought then (gs, false)
       else if isWithinBudget budget (investedCapital gs) g.order_krw_amount then
         (markBought gs a.level a.fill_volume a.fill_price, true)
       else (gs, false)) := by
  unfold guardedBuyAttempt
  rw [hf]

lemma guardedBuyAttempt_skip (budget : ℚ) (gs : List GridLevel)
    (a : BuyAttempt) (h : (guardedBuyAttempt budget gs a).2 = false) :
    (guardedBuyAttempt budget gs a).1 = gs := by
  cases hf : gs.find? (fun g => g.level = a.level) with
  | none => rw [guardedBuyAttempt_of_find_none budget gs a hf]
  | some g =>
    rw [guardedBuyAttempt_of_find_some budget gs a g hf] at h ⊢
    by_cases hgb : g.is_bought
    · simp [hgb]
    · by_cases hw : isWithinBudget budget (investedCapital gs) g.order_krw_amount
      · simp [hgb, hw] at h
      · simp [hgb, hw]

lemma guardedBuyAttempt_approved (budget : ℚ) (gs : List GridLevel)
    (a : BuyAttempt) (hb : 0 < budget)
    (hnd : (gs.map GridLevel.level).Nodup)
    (h : (guardedBuyAttempt budget gs a).2 = true) :
    investedCapital (guardedBuyAttempt budget gs a).1 ≤ budget := by
  cases hf : gs.find? (fun g => g.level = a.level) with
  | none =>
    rw [guardedBuyAttempt_of_find_none budget gs a hf] at h
    simp at h
  | some g =>
    rw [guardedBuyAttempt_of_find_some budget gs a g hf] at h ⊢
    by_cases hgb : g.is_bought
    · simp [hgb] at h
    · by_cases hw : isWithinBudget budget (investedCapital gs) g.order_krw_amount
      · have hle : investedCapital gs + g.order_krw_amount ≤ budget := by
          unfold isWithinBudget at hw
          rw [if_neg (not_le.mpr hb)] at hw
          exact of_decide_eq_true hw
        have hmark := investedCapital_markBought gs a.level a.fill_volume
          a.fill_price g hnd hf (by simp at hgb; exact hgb)
        rw [if_neg hgb, if_pos hw]
        exact le_of_eq_of_le hmark hle
      · simp [hgb, hw] at h

lemma guardedBuyAttempt_map_level (budget : ℚ) (gs : List GridLevel)
    (a : BuyAttempt) :
    ((guardedBuyAttempt budget gs a).1).map GridLevel.level =
      gs.map GridLevel.level := by
  cases hf : gs.find? (fun g => g.level = a.level) with
  | none => rw [guardedBuyAttempt_of_find_none budget gs a hf]
  | some g =>
    rw [guardedBuyAttempt_of_find_some budget gs a g hf]
    by_cases hgb : g.is_bought
    · simp [hgb]
    · by_cases hw : isWithinBudget budget (investedCapital gs) g.order_krw_amount
      · simp [hgb, hw, markBought_map_level]
      · simp [hgb, hw]

lemma runBuyAttempts_map_level (budget : ℚ) (gs : List GridLevel)
    (attempts : List BuyAttempt) :
    ((runBuyAttempts budget gs attempts).map GridLevel.level) =
      gs.map GridLevel.level := by
  induction attempts generalizing gs with
  | nil => rfl
  | cons a t ih =>
    have hstep : runBuyAttempts budget gs (a :: t) =
        runBuyAttempts budget (guardedBuyAttempt budget gs a).1 t := rfl
    rw [hstep, ih, guardedBuyAttempt_map_level]

/-- Claim C2 (spec-modelled BudgetGuard): a buy attempt rejected by the
budget check leaves the grid unchanged (the buy is skipped), and after any
sequence of guarded buy attempts, at the instant a further buy is
approved the invested capital of the resulting grid stays at or below a
positive budget ceiling. -/
theorem claim_C2 (budget : ℚ) (grids : List GridLevel)
    (attempts : List BuyAttempt) (a : BuyAttempt)
    (hb : 0 < budget) (hnd : (grids.map GridLevel.level).Nodup) :
    ((guardedBuyAttempt budget (runBuyAttempts budget grids attempts) a).2 =
        false →
      (guardedBuyAttempt budget (runBuyAttempts budget grids attempts) a).1 =
        runBuyAttempts budget grids attempts) ∧
    ((guardedBuyAttempt budget (runBuyAttempts budget grids attempts) a).2 =
        true →
      investedCapital
          (guardedBuyAttempt budget (runBuyAttempts budget grids attempts) a).1
        ≤ budget) := by
  have hnd' : ((runBuyAttempts budget grids attempts).map GridLevel.level).Nodup := by
    rw [runBuyAttempts_map_level]
    exact hnd
  exact ⟨fun h => guardedBuyAttempt_skip budget _ a h,
    fun h => guardedBuyAttempt_approved budget _ a hb hnd' h⟩

/-- The grid of spec scenario C: 480000 already invested at level 1 and a
proposed level-2 order of 30000 against a 500000 ceiling. -/
def budgetScenarioGrid : List GridLevel :=
  [{ level := 1, buy_price_target := 100000, sell_price_target := 101000,
     buy_price_min := 99000, order_krw_amount := 480000, is_bought := true,
     actual_bought_volume := 5, actual_buy_fill_price := 96000 },
   { level := 2, buy_price_target := 99000, sell_price_target := 100000,
     buy_price_min := 98000, order_krw_amount := 30000, is_bought := false,
     actual_bought_volume := 0, actual_buy_fill_price := 0 }]

/-- Witness for C2 at spec scenario C: the guard rejects a 30000 order on
top of 480000 invested against a 500000 ceiling, and the grid is left
unchanged. -/
theorem claim_C2_witness :
    (guardedBuyAttempt 500000 (runBuyAttempts 500000 budgetScenarioGrid [])
        ⟨2, 1, 98500⟩).1 = runBuyAttempts 500000 budgetScenarioGrid [] :=
  (claim_C2 500000 budgetScenarioGrid [] ⟨2, 1, 98500⟩ (by norm_num)
    (by simp [budgetScenarioGrid])).1
    (by norm_num [runBuyAttempts, guardedBuyAttempt, budgetScenarioGrid,
      isWithinBudget, investedCapital, List.find?])

/-- A bought sample level, for concrete instantiations. -/
def sampleBought : GridLevel :=
  { level := 1, buy_price_target := 100000, sell_price_target := 101000,
    buy_price_min := 99000, order_krw_amount := 10000, is_bought := true,
    actual_bought_volume := 1/10, actual_buy_fill_price := 100000 }

/-- An unbought sample level, for concrete instantiations. -/
def sampleUnbought : GridLevel :=
  { level := 1, buy_price_target := 100000, sell_price_target := 101000,
    buy_price_min := 99000, order_krw_amount := 10000, is_bought := false,
    actual_bought_volume := 0, actual_buy_fill_price := 0 }

lemma buy_coin_of_isBought (fee cur bal : ℚ) (r : Option OrderDetail)
    (g : GridLevel) (h : g.is_bought = true) :
    buy_coin fee cur bal r g = (false, g, none) := by
  simp [buy_coin, h]

lemma buy_coin_success_isBought (fee cur bal : ℚ) (r : Option OrderDetail)
    (g : GridLevel) (h : (buy_coin fee cur bal r g).1 = true) :
    ((buy_coin fee cur bal r g).2.1).is_bought = true := by
  by_cases h1 : g.is_bought
  · simp [buy_coin, h1] at h
  · by_cases h2 : bal < g.order_krw_amount
    · simp [buy_coin, h1, h2] at h
    · rcases r with _ | od
      · simp [buy_coin, h1, h2] at h
      · by_cases h3 : od.executed_volume.getD 0 ≤ 0
        · simp [buy_coin, h1, h2, h3] at h
        · simp [buy_coin, h1, h2, h3]

lemma buy_coin_none (fee cur bal : ℚ) (g : GridLevel) :
    buy_coin fee cur bal none g = (false, g, none) := by
  by_cases h1 : g.is_bought
  · simp [buy_coin, h1]
  · by_cases h2 : bal < g.order_krw_amount <;> simp [buy_coin, h1, h2]

lemma buy_coin_zero_volume (fee cur bal : ℚ) (od : OrderDetail)
    (g : GridLevel) (h : od.executed_volume.getD 0 ≤ 0) :
    buy_coin fee cur bal (some od) g = (false, g, none) := by
  by_cases h1 : g.is_bought
  · simp [buy_coin, h1]
  · by_cases h2 : bal < g.order_krw_amount
    · simp [buy_coin, h1, h2]
    · simp [buy_coin, h1, h2, h]

/-- Claim C6: buying an already-bought level returns false, leaves the
level unchanged and appends no trades row; in particular a second call of
the buy operation after a successful one is a no-op on the resulting
level. -/
theorem claim_C6 (fee cur bal fee2 cur2 bal2 : ℚ) (r r2 : Option OrderDetail)
    (g : GridLevel) :
    (g.is_bought = true → buy_coin fee cur bal r g = (false, g, none)) ∧
    ((buy_coin fee cur bal r g).1 = true →
      buy_coin fee2 cur2 bal2 r2 (buy_coin fee cur bal r g).2.1 =
        (false, (buy_coin fee cur bal r g).2.1, none)) := by
  constructor
  · intro h
    exact buy_coin_of_isBought fee cur bal r g h
  · intro h
    exact buy_coin_of_isBought fee2 cur2 bal2 r2 _
      (buy_coin_success_isBought fee cur bal r g h)

/-- Witness for C6 at concrete inputs: a bought level, and a level that a
first successful buy has just marked bought. -/
theorem claim_C6_witness :
    buy_coin 0 100000 50000 (some ⟨some (1/10), some 100000, some 5⟩)
        sampleBought = (false, sampleBought, none) ∧
    buy_coin 0 100000 50000 none
        (buy_coin 0 100000 50000 (some ⟨some (1/10), some 100000, some 5⟩)
          sampleUnbought).2.1 =
      (false,
       (buy_coin 0 100000 50000 (some ⟨some (1/10), some 100000, some 5⟩)
         sampleUnbought).2.1, none) := by
  constructor
  · exact (claim_C6 0 100000 50000 0 100000 50000
      (some ⟨some (1/10), some 100000, some 5⟩) none sampleBought).1 rfl
  · exact (claim_C6 0 100000 50000 0 100000 50000
      (some ⟨some (1/10), some 100000, some 5⟩) none sampleUnbought).2
      (by norm_num [buy_coin, sampleUnbought])

/-- Claim C7: a buy whose fill confirmation fails, or whose reported
filled volume is zero (or less), is treated as failed: the level is not
mutated, no trades row is appended, false is returned, and the pass over
the grid continues with the remaining levels unchanged in behaviour. -/
theorem claim_C7 (env : Env) (price fee cur bal : ℚ) (g : GridLevel)
    (od : OrderDetail) (rest : List GridLevel) :
    (buy_coin fee cur bal none g = (false, g, none)) ∧
    (od.executed_volume.getD 0 ≤ 0 →
      buy_coin fee cur bal (some od) g = (false, g, none)) ∧
    (env.buy_order g.level = some od → od.executed_volume.getD 0 ≤ 0 →
      buyCondition price g = true →
      trade_pass env price (g :: rest) =
        (g :: (trade_pass env price rest).1,
         (trade_pass env price rest).2.1,
         (trade_pass env price rest).2.2)) := by
  refine ⟨buy_coin_none fee cur bal g,
    fun h => buy_coin_zero_volume fee cur bal od g h, ?_⟩
  intro ho hv hc
  have hfail : buy_coin env.fee_rate price (env.krw_balance g.level)
      (env.buy_order g.level) g = (false, g, none) := by
    rw [ho]
    exact buy_coin_zero_volume _ _ _ od g hv
  simp [trade_pass, hc, hfail]

/-- The oracle used by the C7 witness: every buy order confirms with a
reported executed volume of zero. -/
def zeroFillEnv : Env :=
  { fee_rate := 0, krw_balance := fun _ => 50000, coin_balance := fun _ => 1,
    buy_order := fun _ => some ⟨some 0, none, none⟩,
    sell_order := fun _ => none }

/-- Witness for C7 at concrete inputs: a zero-volume confirmed buy on an
unbought level inside a pass over a two-level grid. -/
theorem claim_C7_witness :
    buy_coin 0 99500 50000 none sampleUnbought = (false, sampleUnbought, none) ∧
    buy_coin 0 99500 50000 (some ⟨some 0, none, none⟩) sampleUnbought =
      (false, sampleUnbought, none) ∧
    trade_pass zeroFillEnv 99500 (sampleUnbought :: [sampleBought]) =
      (sampleUnbought :: (trade_pass zeroFillEnv 99500 [sampleBought]).1,
       (trade_pass zeroFillEnv 99500 [sampleBought]).2.1,
       (trade_pass zeroFillEnv 99500 [sampleBought]).2.2) := by
  refine ⟨(claim_C7 zeroFillEnv 99500 0 99500 50000 sampleUnbought
      ⟨some 0, none, none⟩ [sampleBought]).1,
    (claim_C7 zeroFillEnv 99500 0 99500 50000 sampleUnbought
      ⟨some 0, none, none⟩ [sampleBought]).2.1 (by norm_num),
    (claim_C7 zeroFillEnv 99500 0 99500 50000 sampleUnbought
      ⟨some 0, none, none⟩ [sampleBought]).2.2 rfl (by norm_num)
      (by norm_num [buyCondition, sampleUnbought])⟩

/-- Claim C9: a cycle whose price read returns nothing performs no trading
action and no state mutation, the price globals are untouched (the missing
tick is never substituted by zero), and the loop proceeds to the next
cycle. -/
theorem claim_C9 (env : Env) (s : LoopState) (ticks : List (Option ℚ × Env)) :
    run_trading_cycle none env s = s ∧
    run_trading_loop ((none, env) :: ticks) s = run_trading_loop ticks s ∧
    get_current_price none s.previous_price s.current_price =
      (none, s.previous_price, s.current_price) := by
  have h1 : run_trading_cycle none env s = s := rfl
  exact ⟨h1, by simp [run_trading_loop, h1], rfl⟩

lemma evaluate_scenarioB :
    (create_grid_orders (some 100000) (some 100000) 0 1000 3 10000).map
      (evaluate 98500) = some [Action.buy 2] := by
  norm_num [create_grid_orders, resolvedInterval, evaluate, buyCondition,
    sellCondition, List.range_succ]
  norm_num [List.filterMap_cons]

lemma mem_evaluate_buy (price : ℚ) (grids : List GridLevel) (l : ℕ) :
    Action.buy l ∈ evaluate price grids ↔
      ∃ g ∈ grids, g.level = l ∧ buyCondition price g = true := by
  unfold evaluate
  rw [List.mem_filterMap]
  constructor
  · rintro ⟨g, hg, hsome⟩
    by_cases hb : buyCondition price g
    · simp only [hb, if_true, Option.some.injEq] at hsome
      cases hsome
      exact ⟨g, hg, rfl, hb⟩
    · by_cases hs : sellCondition price g
      · simp [hb, hs] at hsome
      · simp [hb, hs] at hsome
  · rintro ⟨g, hg, rfl, hb⟩
    exact ⟨g, hg, by simp [hb]⟩

/-- Counterexample to claim C1: on the grid built from base price 100000
with fixed interval 1000 and three levels, at price 98500 the level with
buy target 100000 is unbought and 98500 is at or below its target, yet
only the level with target 99000 triggers a buy — the trigger is the band
buy_price_min < price <= buy_price_target of line 442, not
price <= buy_price_target. -/
theorem claim_C1_counterexample :
    ((create_grid_orders (some 100000) (some 100000) 0 1000 3 10000).map
        (fun gs => gs.map (fun g => (g.level, g.is_bought, g.buy_price_target)))) =
      some [(1, false, 100000), (2, false, 99000), (3, false, 98000)] ∧
    (98500 : ℚ) ≤ 100000 ∧
    ((create_grid_orders (some 100000) (some 100000) 0 1000 3 10000).map
        (evaluate 98500)) = some [Action.buy 2] := by
  refine ⟨?_, by norm_num, evaluate_scenarioB⟩
  norm_num [create_grid_orders, resolvedInterval, List.range_succ]

/-- Claim C1 (amended): a not-bought level of a constructed grid triggers
a buy at a price exactly when the price is inside the band one interval
below the level's buy target: the level at position i (level i+1)
triggers iff B - (i+1)*d < price <= B - i*d; concretely, at price 98500
on the grid with base 100000 and interval 1000, only the level with
target 99000 triggers. -/
theorem claim_C1_fix (p B gip pc A price : ℚ) (N : ℕ) (gs : List GridLevel)
    (i : ℕ) (h : create_grid_orders (some p) (some B) gip pc N A = some gs)
    (hi : i < N) :
    (Action.buy (i + 1) ∈ evaluate price gs ↔
      (B - (i + 1 : ℕ) * resolvedInterval B gip pc < price ∧
       price ≤ B - (i : ℕ) * resolvedInterval B gip pc)) ∧
    (create_grid_orders (some 100000) (some 100000) 0 1000 3 10000).map
      (evaluate 98500) = some [Action.buy 2] := by
  refine ⟨?_, evaluate_scenarioB⟩
  by_cases hd : resolvedInterval B gip pc ≤ 0
  · simp [create_grid_orders, hd] at h
  · simp only [create_grid_orders, Option.getD_some, if_neg hd,
      Option.some.injEq] at h
    subst h
    rw [mem_evaluate_buy]
    simp only [List.mem_map, List.mem_range]
    constructor
    · rintro ⟨g, ⟨j, hj, rfl⟩, hlev, hcond⟩
      simp only at hlev
      have hji : j = i := by omega
      subst hji
      simp only [buyCondition, Bool.and_eq_true, decide_eq_true_eq,
        Bool.not_eq_true'] at hcond
      push_cast
      constructor
      · nlinarith [hcond.1.2]
      · exact hcond.2
    · intro hband
      refine ⟨_, ⟨i, hi, rfl⟩, rfl, ?_⟩
      simp only [buyCondition, Bool.and_eq_true, decide_eq_true_eq,
        Bool.not_eq_true']
      push_cast at hband
      refine ⟨⟨trivial, by nlinarith [hband.1]⟩, hband.2⟩

/-- The three-level grid of the 98500 scenario, written out. -/
def scenarioGrid : List GridLevel :=
  [{ level := 1, buy_price_target := 100000, sell_price_target := 101000,
     buy_price_min := 99000, order_krw_amount := 10000, is_bought := false,
     actual_bought_volume := 0, actual_buy_fill_price := 0 },
   { level := 2, buy_price_target := 99000, sell_price_target := 100000,
     buy_price_min := 98000, order_krw_amount := 10000, is_bought := false,
     actual_bought_volume := 0, actual_buy_fill_price := 0 },
   { level := 3, buy_price_target := 98000, sell_price_target := 99000,
     buy_price_min := 97000, order_krw_amount := 10000, is_bought := false,
     actual_bought_volume := 0, actual_buy_fill_price := 0 }]

/-- Witness for the amended C1: on the concrete three-level grid the band
characterisation yields the buy trigger of level 2 at price 98500. -/
theorem claim_C1_witness : Action.buy 2 ∈ evaluate 98500 scenarioGrid :=
  (claim_C1_fix 100000 100000 0 1000 10000 98500 3 scenarioGrid 1
    (by norm_num [create_grid_orders, resolvedInterval, List.range_succ,
      scenarioGrid])
    (by norm_num)).1.mpr (by push_cast; norm_num [resolvedInterval])

/-- Claim C4: a grid constructed from base price B with a positive
resolved interval d and level count N has, at position i (level i+1),
buy target B - i*d and sell target one interval above it; adjacent buy
targets differ by exactly d and strictly decrease; exactly N levels are
produced, all initially not bought; and the concrete scenario
basePrice 100000, interval 1000, 5 levels yields buy targets
100000..96000 with each sell target 1000 higher. -/
theorem claim_C4 (p B gip pc A : ℚ) (N : ℕ) (gs : List GridLevel)
    (h : create_grid_orders (some p) (some B) gip pc N A = some gs) :
    0 < resolvedInterval B gip pc ∧
    gs.length = N ∧
    (∀ i (hi : i < gs.length),
      (gs[i]).level = i + 1 ∧
      (gs[i]).buy_price_target = B - i * resolvedInterval B gip pc ∧
      (gs[i]).sell_price_target =
        (gs[i]).buy_price_target + resolvedInterval B gip pc ∧
      (gs[i]).is_bought = false ∧ (gs[i]).order_krw_amount = A) ∧
    (∀ i (hi : i + 1 < gs.length),
      (gs[i + 1]).buy_price_target < (gs[i]).buy_price_target ∧
      (gs[i]).buy_price_target - (gs[i + 1]).buy_price_target =
        resolvedInterval B gip pc) ∧
    ((create_grid_orders (some 100000) (some 100000) 0 1000 5 A).map
        (fun l => l.map GridLevel.buy_price_target)) =
      some [100000, 99000, 98000, 97000, 96000] ∧
    ((create_grid_orders (some 100000) (some 100000) 0 1000 5 A).map
        (fun l => l.map GridLevel.sell_price_target)) =
      some [101000, 100000, 99000, 98000, 97000] := by
  by_cases hd : resolvedInterval B gip pc ≤ 0
  · simp [create_grid_orders, hd] at h
  · have hd' : 0 < resolvedInterval B gip pc := not_le.mp hd
    simp only [create_grid_orders, Option.getD_some, if_neg hd,
      Option.some.injEq] at h
    subst h
    refine ⟨hd', by simp, ?_, ?_, ?_, ?_⟩
    · intro i hi
      simp at hi
      simp [List.getElem_map, List.getElem_range, hi]
    · intro i hi
      simp at hi
      have hi1 : i < N := by omega
      simp [List.getElem_map, List.getElem_range, hi, hi1]
      constructor
      · nlinarith [hd']
      · ring
    · simp [create_grid_orders, resolvedInterval, List.range_succ]
      norm_num
    · simp [create_grid_orders, resolvedInterval, List.range_succ]
      norm_num

/-- Witness for C4: a one-level grid at base price 100000 with fixed
interval 1000. -/
theorem claim_C4_witness :
    (0 : ℚ) < resolvedInterval 100000 0 1000 ∧
    ([{ level := 1, buy_price_target := 100000, sell_price_target := 101000,
        buy_price_min := 99000, order_krw_amount := 10000, is_bought := false,
        actual_bought_volume := 0, actual_buy_fill_price := 0 }] :
      List GridLevel).length = 1 := by
  have h := claim_C4 100000 100000 0 1000 10000 1
    [{ level := 1, buy_price_target := 100000, sell_price_target := 101000,
       buy_price_min := 99000, order_krw_amount := 10000, is_bought := false,
       actual_bought_volume := 0, actual_buy_fill_price := 0 }]
    (by norm_num [create_grid_orders, resolvedInterval, List.range_succ])
  exact ⟨h.1, h.2.1⟩

/-- Claim C5: a successful buy with fill volume v followed by a successful
sell at fill price p2 with fee f2 restores is_bought = false and a zero
recorded volume, and the appended sell trades row records
profit = (p2*v - f2) - orderAmount and
profitPercentage = profit / orderAmount * 100. -/
theorem claim_C5 (fee1 fee2 cur1 cur2 bal1 bal2 v p f p2 f2 : ℚ)
    (sv : Option ℚ) (g : GridLevel)
    (hnb : g.is_bought = false)
    (hbal : ¬ bal1 < g.order_krw_amount)
    (hv : 0 < v)
    (hA : 0 < g.order_krw_amount)
    (hbal2 : ¬ bal2 < v) :
    (buy_coin fee1 cur1 bal1 (some ⟨some v, some p, some f⟩) g).1 = true ∧
    sell_coin fee2 cur2 bal2 (some ⟨sv, some p2, some f2⟩)
        (buy_coin fee1 cur1 bal1 (some ⟨some v, some p, some f⟩) g).2.1 =
      (true,
       { g with is_bought := false, actual_bought_volume := 0,
                actual_buy_fill_price := 0 },
       some { side := Side.sell, grid_level := g.level, price := p2,
              amount := v * p2 - f2, volume := v, fee := f2,
              profit := (p2 * v - f2) - g.order_krw_amount,
              profit_percentage :=
                ((p2 * v - f2) - g.order_krw_amount) /
                  g.order_krw_amount * 100 }) := by
  have hv' : ¬ v ≤ 0 := not_le.mpr hv
  have h1 : (buy_coin fee1 cur1 bal1 (some ⟨some v, some p, some f⟩) g).2.1 =
      { g with is_bought := true, actual_bought_volume := v,
               actual_buy_fill_price := p } := by
    simp [buy_coin, hnb, hbal, hv']
  refine ⟨by simp [buy_coin, hnb, hbal, hv'], ?_⟩
  rw [h1]
  simp [sell_coin, hbal2, hA]
  constructor
  · ring
  · ring

/-- Witness for C5: a concrete round trip on an unbought sample level,
buying a volume of 1/10 at 100000 and selling it at 101000 with fee 6. -/
theorem claim_C5_witness :
    (buy_coin 0 100000 50000
        (some ⟨some (1/10), some 100000, some 5⟩) sampleUnbought).1 = true ∧
    sell_coin 0 100000 1 (some ⟨some 0, some 101000, some 6⟩)
        (buy_coin 0 100000 50000
          (some ⟨some (1/10), some 100000, some 5⟩) sampleUnbought).2.1 =
      (true,
       { sampleUnbought with is_bought := false, actual_bought_volume := 0,
                             actual_buy_fill_price := 0 },
       some { side := Side.sell, grid_level := sampleUnbought.level,
              price := 101000, amount := (1/10) * 101000 - 6, volume := 1/10,
              fee := 6,
              profit := (101000 * (1/10) - 6) - sampleUnbought.order_krw_amount,
              profit_percentage :=
                ((101000 * (1/10) - 6) - sampleUnbought.order_krw_amount) /
                  sampleUnbought.order_krw_amount * 100 }) :=
  claim_C5 0 0 100000 100000 50000 1 (1/10) 100000 5 101000 6 (some 0)
    sampleUnbought rfl (by norm_num [sampleUnbought]) (by norm_num)
    (by norm_num [sampleUnbought]) (by norm_num)

/-- Counterexample to claim C3: a confirmed sell whose order detail
reports an executed volume of zero still clears the bought level and
appends a trades row, because sell_coin never inspects the reported
volume. -/
theorem claim_C3_counterexample :
    sampleBought.is_bought = true ∧
    (⟨some 0, some 100000, some 5⟩ : OrderDetail).executed_volume = some 0 ∧
    (sell_coin 0 100000 1 (some ⟨some 0, some 100000, some 5⟩)
        sampleBought).2.1 ≠ sampleBought ∧
    (sell_coin 0 100000 1 (some ⟨some 0, some 100000, some 5⟩)
        sampleBought).2.2 ≠ none := by
  refine ⟨rfl, rfl, ?_, ?_⟩
  · norm_num [sell_coin, sampleBought]
  · norm_num [sell_coin, sampleBought]
    exact Option.some_ne_none _

/-- Claim C3 (amended): the reported filled volume of a sell is never
inspected: only a failed submission or confirmation (a missing order
detail) leaves the level state and the trades log unchanged, while a
confirmed sell proceeds — clearing the level and appending a trades row
computed from the recorded bought volume — even when the reported
executed volume is zero. -/
theorem claim_C3_fix (fee cur bal : ℚ) (g : GridLevel) (od : OrderDetail)
    (x : Option ℚ) :
    (sell_coin fee cur bal none g = (false, g, none)) ∧
    (sell_coin fee cur bal (some od) g =
      sell_coin fee cur bal (some ⟨x, od.avg_price, od.paid_fee⟩) g) ∧
    (g.is_bought = true → ¬ bal < g.actual_bought_volume →
      (sell_coin fee cur bal (some od) g).1 = true ∧
      ((sell_coin fee cur bal (some od) g).2.1).is_bought = false ∧
      (sell_coin fee cur bal (some od) g).2.2 ≠ none) := by
  refine ⟨?_, rfl, ?_⟩
  · by_cases h1 : g.is_bought
    · by_cases h2 : bal < g.actual_bought_volume <;> simp [sell_coin, h1, h2]
    · simp [sell_coin, h1]
  · intro hb hbal
    simp [sell_coin, hb, hbal]

/-- Witness for the amended C3 at concrete inputs: a zero-volume confirmed
sell on a bought sample level. -/
theorem claim_C3_witness :
    sell_coin 0 100000 1 none sampleBought = (false, sampleBought, none) ∧
    (sell_coin 0 100000 1 (some ⟨some 0, some 100000, some 5⟩)
        sampleBought).1 = true ∧
    ((sell_coin 0 100000 1 (some ⟨some 0, some 100000, some 5⟩)
        sampleBought).2.1).is_bought = false ∧
    (sell_coin 0 100000 1 (some ⟨some 0, some 100000, some 5⟩)
        sampleBought).2.2 ≠ none := by
  have h := claim_C3_fix 0 100000 1 sampleBought
    ⟨some 0, some 100000, some 5⟩ none
  have h3 := h.2.2 rfl (by norm_num [sampleBought])
  exact ⟨h.1, h3.1, h3.2.1, h3.2.2⟩

/-- Claim C8: a positive percentage interval takes precedence over the
fixed amount and resolves to basePrice * percent / 100; otherwise the
fixed amount is used; and construction fails whenever the resolved
absolute interval is not positive. -/
theorem claim_C8 (p B gip pc A : ℚ) (N : ℕ) :
    (0 < gip → resolvedInterval B gip pc = B * (gip / 100)) ∧
    (¬ 0 < gip → resolvedInterval B gip pc = pc) ∧
    (resolvedInterval B gip pc ≤ 0 →
      create_grid_orders (some p) (some B) gip pc N A = none) := by
  refine ⟨fun h => by simp [resolvedInterval, h],
    fun h => by simp [resolvedInterval, h],
    fun h => by simp [create_grid_orders, h]⟩

/-- Witness for C8 at concrete inputs drawn from the shipped
configuration: a positive percentage, a zero percentage with a fixed
interval, and a configuration resolving to a zero interval. -/
theorem claim_C8_witness :
    resolvedInterval 6300000 (6/5) 550000 = 6300000 * ((6/5) / 100) ∧
    resolvedInterval 170000000 0 550000 = 550000 ∧
    create_grid_orders (some 170000000) (some 170000000) 0 0 20 450000 =
      none := by
  refine ⟨(claim_C8 0 6300000 (6/5) 550000 450000 20).1 (by norm_num),
    (claim_C8 0 170000000 0 550000 450000 20).2.1 (by norm_num),
    (claim_C8 170000000 170000000 0 0 450000 20).2.2
      (by norm_num [resolvedInterval])⟩

/-- Claim C10: grid construction aborts when the live price read is
unavailable, even when a configured base price is supplied. -/
theorem claim_C10 (input_base_price : Option ℚ) (gip pc A : ℚ) (N : ℕ) :
    create_grid_orders none input_base_price gip pc N A = none ∧
    ∀ b : ℚ, create_grid_orders none (some b) gip pc N A = none :=
  ⟨rfl, fun _ => rfl⟩

end BitMoon
